import Mathlib

/-!
Shallow embedding of the product-catalog server actions of this repository
(`src/src/actions/productActions.ts` and the unnamed revision of the same
module, `src/unnamed/part_000`) and proofs about them.

The two files contain two revisions of the same module.  Where they agree the
embedding is shared; where they differ (the count query, the sort parsing,
the brand-filter encoding) both variants are embedded, suffixed `A` for the
`productActions.ts` revision and `B` for the `part_000` revision.

Encoded list columns (`products.brands`, a comma-or-JSON-encoded id list, and
`products.occasion`, a comma-separated tag list) are modelled at the decoded
level: the column holds the decoded list, and `FIND_IN_SET(x, col) > 0`
(revision A) respectively `JSON_CONTAINS(col, x, root)` (revision B) both
denote list membership of `x`.
-/

/- ===== JavaScript-level helpers ===== -/

/-- `Math.ceil(a / b)` for natural `a` and positive natural `b`. -/
def ceilDiv (a b : Nat) : Nat := (a + b - 1) / b

/-- Accumulator for `jsSplitDash`: splits a character list at each dash. -/
def splitDashAux : List Char → List Char → List String
  | [], acc => [String.mk acc.reverse]
  | c :: cs, acc =>
    if c = '-' then String.mk acc.reverse :: splitDashAux cs []
    else splitDashAux cs (c :: acc)

/-- JavaScript `s.split("-")`: e.g. `"6-10" ↦ ["6","10"]`, `"price" ↦ ["price"]`,
`"" ↦ [""]`, `"a-" ↦ ["a",""]`. -/
def jsSplitDash (s : String) : List String := splitDashAux s.data []

/-- ASCII lower-casing of one character, modelling `toLowerCase` on the
ASCII column/direction tokens this module compares. -/
def charLower (c : Char) : Char :=
  if 'A' ≤ c ∧ c ≤ 'Z' then Char.ofNat (c.toNat + 32) else c

/-- JavaScript `s.toLowerCase()` restricted to ASCII input. -/
def jsToLower (s : String) : String := String.mk (s.data.map charLower)

/-- Digit value of a character, if it is a decimal digit. -/
def digitVal (c : Char) : Option Nat :=
  if '0' ≤ c ∧ c ≤ '9' then some (c.toNat - 48) else none

/-- Decimal reading of a character list; `none` for any non-digit.
The empty list reads as `0`, matching JavaScript `Number("") = 0`. -/
def readDigits (cs : List Char) : Option Nat :=
  cs.foldl
    (fun acc c =>
      match acc, digitVal c with
      | some n, some d => some (n * 10 + d)
      | _, _ => none)
    (some 0)

/-- JavaScript `Number(x)` on an optional string, for the integer-valued
numerics this module handles: `none` models `NaN` (`Number(undefined)` is
`NaN`, `Number("abc")` is `NaN`, `Number("") = 0`, `Number("10") = 10`). -/
def jsNumber : Option String → Option Int
  | none => none
  | some s => (readDigits s.data).map Int.ofNat

/- ===== Data model ===== -/

/-- A row of the `products` table.  `brands` and `occasion` are the decoded
contents of the encoded list columns (see the module docstring). -/
structure Product where
  id : Nat
  name : String := ""
  description : String := ""
  colors : String := ""
  image_url : String := ""
  gender : String := ""
  price : Int := 0
  old_price : Int := 0
  discount : Int := 0
  rating : Int := 0
  created_at : Int := 0
  brands : List Nat := []
  occasion : List String := []
deriving DecidableEq, Repr

/-- A row of the `product_categories` association table. -/
structure ProductCategory where
  product_id : Nat
  category_id : Nat
deriving DecidableEq, Repr

/-- A row of the `reviews` table (only the columns the actions touch). -/
structure Review where
  id : Nat
  product_id : Nat
deriving DecidableEq, Repr

/-- A row of the `comments` table (only the columns the actions touch). -/
structure CommentRow where
  id : Nat
  product_id : Nat
deriving DecidableEq, Repr

/-- The relational store the actions run against.  `fkChecks` models the
MySQL session variable toggled by `SET foreign_key_checks`. -/
structure DB where
  products : List Product := []
  product_categories : List ProductCategory := []
  reviews : List Review := []
  comments : List CommentRow := []
  fkChecks : Bool := true
deriving DecidableEq, Repr

/-- The `filters` argument of `getProducts`.  `none` models an absent field;
JavaScript falsiness of `""` and `0` is handled at each use site, as in the
source. -/
structure Filters where
  brandIds : List Nat := []
  categoryIds : List Nat := []
  gender : Option String := none
  priceRangeTo : Option Int := none
  discount : Option String := none
  occasions : List String := []
  sortBy : Option String := none
deriving DecidableEq, Repr

/-- The record returned by `getProducts`. -/
structure ProductsResult where
  products : List Product
  count : Nat
  lastPage : Nat
  numOfResultsOnCurPage : Nat
deriving DecidableEq, Repr

/- ===== Filter clauses (shared by both revisions) ===== -/

/-- Brand clause: the OR-joined per-id conditions (`FIND_IN_SET(id, brands) > 0`
in revision A, `JSON_CONTAINS(brands, id, root)` in revision B), i.e. some
given id occurs in the product's decoded brand list. -/
def brandMatch (bids : List Nat) (p : Product) : Bool :=
  bids.any (fun b => p.brands.contains b)

/-- Occasion clause: OR-joined `FIND_IN_SET(tag, products.occasion) > 0`. -/
def occasionMatch (tags : List String) (p : Product) : Bool :=
  tags.any (fun t => p.occasion.contains t)

/-- Gender clause: `where gender = filters.gender`, skipped when the field is
absent or `""` (falsy). -/
def genderClause (g : Option String) (p : Product) : Bool :=
  match g with
  | none => true
  | some s => if s = "" then true else p.gender == s

/-- Price clause: `where price <= filters.priceRangeTo`, skipped when absent
or `0` (falsy). -/
def priceClause (bound : Option Int) (p : Product) : Bool :=
  match bound with
  | none => true
  | some v => if v = 0 then true else decide (p.price ≤ v)

/-- Discount clause: split `"min-max"`, convert both parts with `Number`, and
require `min <= discount <= max` only when neither conversion is `NaN`;
otherwise the clause is skipped.  Skipped as a whole when the field is absent
or `""` (falsy). -/
def discountClause (dOpt : Option String) (p : Product) : Bool :=
  match dOpt with
  | none => true
  | some s =>
    if s = "" then true
    else
      match jsNumber (jsSplitDash s)[0]?, jsNumber (jsSplitDash s)[1]? with
      | some lo, some hi => decide (lo ≤ p.discount) && decide (p.discount ≤ hi)
      | _, _ => true

/-- Conjunction of all non-join `where` clauses, in source order (brands,
gender, price, discount, occasions); the category clause is the join below. -/
def rowPred (f : Filters) (p : Product) : Bool :=
  (f.brandIds.isEmpty || brandMatch f.brandIds p)
  && genderClause f.gender p
  && priceClause f.priceRangeTo p
  && discountClause f.discount p
  && (f.occasions.isEmpty || occasionMatch f.occasions p)

/-- The row multiset after the optional category inner join: without a
category filter, the product rows themselves; with one, one copy of
`products.*` per association row with `product_id = products.id` and
`category_id` in the given set. -/
def catJoinRows (db : DB) (f : Filters) : List Product :=
  if f.categoryIds.isEmpty then db.products
  else
    db.products.flatMap (fun p =>
      ((db.product_categories.filter
          (fun pc => pc.product_id == p.id && f.categoryIds.contains pc.category_id)).map
        (fun _ => p)))

/-- The full filtered row multiset of the built query (join plus all `where`
clauses), before `distinct`, ordering and pagination. -/
def baseRows (db : DB) (f : Filters) : List Product :=
  (catJoinRows db f).filter (rowPred f)

/-- `COUNT(DISTINCT filtered.id)` over the filtered rows. -/
def countDistinctIds (rows : List Product) : Nat :=
  ((rows.map (fun p => p.id)).dedup).length

/-- Spec-side reference predicate: a product satisfies the constructed filter
predicate when it passes every `where` clause and, if a category filter is
given, is associated to some category in the given set.  `matchingProducts`
is the list of distinct products satisfying it (products are distinct rows of
`db.products`). -/
def matchingProducts (db : DB) (f : Filters) : List Product :=
  db.products.filter (fun p =>
    rowPred f p &&
      (f.categoryIds.isEmpty ||
        db.product_categories.any
          (fun pc => pc.product_id == p.id && f.categoryIds.contains pc.category_id)))

/- ===== Sorting ===== -/

/-- The column allow-list, named `validColumns` in both revisions. -/
def validColumns : List String := ["price", "created_at", "rating"]

/-- The direction allow-list (`validOrder` in revision A, `validOrders` in
revision B; same value). -/
def validOrders : List String := ["asc", "desc"]

/-- The error thrown by revision A when `order` is `undefined` and
`order.toLowerCase()` is evaluated (message modelled, not verbatim). -/
def sortTypeError : String := "TypeError: cannot read toLowerCase of undefined"

/-- Revision A sort parsing: split `sortBy` on `-`; the check is
`validColumns.includes(column) && validOrder.includes(order.toLowerCase())`.
When the string has no dash, `order` is `undefined`; if `column` passed the
allow-list the short-circuited second test evaluates
`undefined.toLowerCase()` and throws.  The applied direction is lower-cased
(SQL treats `ASC`/`asc` alike).  Skipped when `sortBy` is absent or `""`. -/
def sortSpecA (sortBy : Option String) : Except String (Option (String × String)) :=
  match sortBy with
  | none => .ok none
  | some s =>
    if s = "" then .ok none
    else
      match jsSplitDash s with
      | [] => .ok none
      | [column] =>
        if validColumns.contains column then .error sortTypeError else .ok none
      | column :: order :: _ =>
        .ok
          (if validColumns.contains column && validOrders.contains (jsToLower order) then
            some (column, jsToLower order)
          else none)

/-- Revision B sort parsing: the check is
`validColumns.includes(column) && validOrders.includes(order)` — the
direction is compared without lower-casing, and a missing direction simply
fails the `includes` test without throwing. -/
def sortSpecB (sortBy : Option String) : Option (String × String) :=
  match sortBy with
  | none => none
  | some s =>
    if s = "" then none
    else
      match jsSplitDash s with
      | [] => none
      | [_] => none
      | column :: order :: _ =>
        if validColumns.contains column && validOrders.contains order then
          some (column, order)
        else none

/-- The sort key of a row for an allow-listed column name. -/
def sortKey (c : String) (p : Product) : Int :=
  if c = "price" then p.price else if c = "created_at" then p.created_at else p.rating

/-- Row comparison for `ORDER BY column direction`. -/
def rowLE (c dir : String) (a b : Product) : Bool :=
  if dir = "desc" then decide (sortKey c b ≤ sortKey c a) else decide (sortKey c a ≤ sortKey c b)

/-- Ordered insertion, the auxiliary step of `isort`. -/
def insertSorted (le : Product → Product → Bool) (x : Product) : List Product → List Product
  | [] => [x]
  | y :: ys => if le x y then x :: y :: ys else y :: insertSorted le x ys

/-- Insertion sort, the model of the SQL `ORDER BY` row ordering. -/
def isort (le : Product → Product → Bool) : List Product → List Product
  | [] => []
  | x :: xs => insertSorted le x (isort le xs)

/-- Apply the parsed sort spec, if any, to the row list. -/
def sortRows (spec : Option (String × String)) (l : List Product) : List Product :=
  match spec with
  | none => l
  | some (c, dir) => isort (rowLE c dir) l

/- ===== getProducts, both revisions ===== -/

/-- `SELECT DISTINCT ... ORDER BY ... OFFSET (pageNo-1)*pageSize LIMIT
pageSize`: the page of distinct rows under the given ordering. -/
def fetchPage (spec : Option (String × String)) (rows : List Product)
    (pageNo pageSize : Nat) : List Product :=
  ((sortRows spec rows.dedup).drop ((pageNo - 1) * pageSize)).take pageSize

/-- `products.*` rows carry no `count` column, so reading `.count` off a
fetched product row yields `undefined` whatever the row is. -/
def selectedCountColumn (_ : Product) : Option Int := none

/-- `getProducts` of revision A (`src/src/actions/productActions.ts`): builds
the filtered query, then runs `executeTakeFirst()` on it with the
`COUNT(DISTINCT products.id)` select commented out — so `count` is the first
fetched product row and `Number(count?.count ?? 0)` is `0` — and then fetches
the distinct page.  The `try/catch` rethrows any error unchanged. -/
def getProducts_A (db : DB) (pageNo pageSize : Nat) (f : Filters) :
    Except String ProductsResult :=
  match sortSpecA f.sortBy with
  | .error e => .error e
  | .ok spec =>
    let rows := baseRows db f
    let firstRow := (sortRows spec rows).head?
    let totalCount := ((firstRow.bind selectedCountColumn).getD 0).toNat
    let pageRows := fetchPage spec rows pageNo pageSize
    .ok
      { products := pageRows
        count := totalCount
        lastPage := ceilDiv totalCount pageSize
        numOfResultsOnCurPage := pageRows.length }

/-- `getProducts` of revision B (`src/unnamed/part_000`): same query builder,
but the count is `SELECT COUNT(DISTINCT filtered.id)` over the filtered query
as a subquery, and the sort parsing is `sortSpecB`. -/
def getProducts_B (db : DB) (pageNo pageSize : Nat) (f : Filters) : ProductsResult :=
  let spec := sortSpecB f.sortBy
  let rows := baseRows db f
  let totalCount := countDistinctIds rows
  let pageRows := fetchPage spec rows pageNo pageSize
  { products := pageRows
    count := totalCount
    lastPage := ceilDiv totalCount pageSize
    numOfResultsOnCurPage := pageRows.length }

/-- `getProducts` with its two data-access calls abstracted by their
outcomes: first the count query runs, then the row query; the surrounding
`try { ... } catch (error) { throw error }` rethrows a failure unchanged, and
each query runs exactly once (no retry). -/
def getProductsSteps (pageSize : Nat) (countQ : Except String Nat)
    (rowsQ : Except String (List Product)) : Except String ProductsResult :=
  match countQ with
  | .error e => .error e
  | .ok n =>
    match rowsQ with
    | .error e => .error e
    | .ok rows =>
      .ok
        { products := rows
          count := n
          lastPage := ceilDiv n pageSize
          numOfResultsOnCurPage := rows.length }

/- ===== Write operations ===== -/

/-- A react-select style option object `{value: ...}`. -/
structure ChoiceOpt (α : Type) where
  value : α
deriving DecidableEq, Repr

/-- The `value` argument of `addProduct` / `editProduct`.  String fields model
the submitted form values (`""` is falsy and treated as absent, as in the
source); `Option` fields model possibly-absent array fields (the
`value.x && Array.isArray(value.x)` guard). -/
structure ProductForm where
  name : String := ""
  description : String := ""
  brands : Option (List (ChoiceOpt Nat)) := none
  colors : String := ""
  occasion : Option (List (ChoiceOpt String)) := none
  gender : String := ""
  discount : String := "0"
  old_price : String := "0"
  price : String := "0"
  rating : String := "0"
  image_url : String := ""
  categories : Option (List (ChoiceOpt Nat)) := none
deriving DecidableEq, Repr

/-- The field set sent to the products table by `addProduct` / `editProduct`.
`none` in an `Option String` field means the field was omitted; in the
numeric fields it means the `Number(...)` conversion produced `NaN`.
`brands` (a `JSON.stringify` of the option values) and `occasion` (the values
joined with commas) are modelled decoded, as in `Product`. -/
structure RowData where
  name : Option String := none
  description : Option String := none
  brands : Option (List Nat) := none
  colors : Option String := none
  occasion : Option (List String) := none
  gender : Option String := none
  discount : Option Int := none
  old_price : Option Int := none
  price : Option Int := none
  rating : Option Int := none
  image_url : Option String := none
deriving DecidableEq, Repr

/-- The `updateData` object built by `editProduct`: optional fields are
copied when truthy; `discount`, `old_price`, `price` and `rating` are always
set, with **`price` set from `Number(value.old_price.toString())`**, exactly
as `old_price` is. -/
def buildUpdateData (v : ProductForm) : RowData :=
  { name := if v.name = "" then none else some v.name
    description := if v.description = "" then none else some v.description
    brands := v.brands.map (fun bs => bs.map (fun b => b.value))
    colors := if v.colors = "" then none else some v.colors
    occasion := v.occasion.map (fun os => os.map (fun o => o.value))
    gender := if v.gender = "" then none else some v.gender
    discount := jsNumber (some v.discount)
    old_price := jsNumber (some v.old_price)
    price := jsNumber (some v.old_price)
    rating := jsNumber (some v.rating)
    image_url := if v.image_url = "" then none else some v.image_url }

/-- The `insertData` object built by `addProduct`; its construction is the
same field-by-field mapping as `updateData`, including `price` being set from
`value.old_price`. -/
def buildInsertData (v : ProductForm) : RowData :=
  { name := if v.name = "" then none else some v.name
    description := if v.description = "" then none else some v.description
    brands := v.brands.map (fun bs => bs.map (fun b => b.value))
    colors := if v.colors = "" then none else some v.colors
    occasion := v.occasion.map (fun os => os.map (fun o => o.value))
    gender := if v.gender = "" then none else some v.gender
    discount := jsNumber (some v.discount)
    old_price := jsNumber (some v.old_price)
    price := jsNumber (some v.old_price)
    rating := jsNumber (some v.rating)
    image_url := if v.image_url = "" then none else some v.image_url }

/-- `UPDATE products SET updateData WHERE id = pid` applied to one row
(fields absent from `updateData` keep their value; driver-level handling of a
`NaN` numeric is out of scope and modelled as keeping the old value). -/
def applyRowUpdate (u : RowData) (p : Product) : Product :=
  { p with
    name := u.name.getD p.name
    description := u.description.getD p.description
    colors := u.colors.getD p.colors
    image_url := u.image_url.getD p.image_url
    gender := u.gender.getD p.gender
    price := u.price.getD p.price
    old_price := u.old_price.getD p.old_price
    discount := u.discount.getD p.discount
    rating := u.rating.getD p.rating
    brands := u.brands.getD p.brands
    occasion := u.occasion.getD p.occasion }

/-- The products row created by `INSERT INTO products VALUES insertData`,
with `newId` the id assigned by the store. -/
def rowToProduct (newId : Nat) (u : RowData) : Product :=
  { id := newId
    name := u.name.getD ""
    description := u.description.getD ""
    colors := u.colors.getD ""
    image_url := u.image_url.getD ""
    gender := u.gender.getD ""
    price := u.price.getD 0
    old_price := u.old_price.getD 0
    discount := u.discount.getD 0
    rating := u.rating.getD 0
    created_at := 0
    brands := u.brands.getD []
    occasion := u.occasion.getD [] }

/-- Outcome of a write operation: `{message: ...}` on success, or the
`{error: ...}` object produced by the `catch` block. -/
inductive WriteResult where
  | ok (message : String)
  | err (error : String)
deriving DecidableEq, Repr

/-- Run a sequence of store mutations with an optional failure point:
`failAt = some k` (with `k` below the step count) means the `k`-th
data-access call throws before mutating, so the steps before `k` remain
applied and the rest never run; the returned flag says whether a step
threw. -/
def runSteps (steps : List (DB → DB)) (failAt : Option Nat) (db : DB) : DB × Bool :=
  match failAt with
  | none => (steps.foldl (fun s g => g s) db, false)
  | some k =>
    if k < steps.length then ((steps.take k).foldl (fun s g => g s) db, true)
    else (steps.foldl (fun s g => g s) db, false)

/-- The six sequential data-access calls of `deleteProduct`, in source order:
disable foreign-key checks, delete the product's `product_categories`,
`reviews` and `comments` rows, delete the `products` row, re-enable
foreign-key checks.  No transaction wraps them. -/
def deleteSteps (pid : Nat) : List (DB → DB) :=
  [ fun db => { db with fkChecks := false },
    fun db =>
      { db with
        product_categories := db.product_categories.filter (fun pc => pc.product_id != pid) },
    fun db => { db with reviews := db.reviews.filter (fun r => r.product_id != pid) },
    fun db => { db with comments := db.comments.filter (fun c => c.product_id != pid) },
    fun db => { db with products := db.products.filter (fun p => p.id != pid) },
    fun db => { db with fkChecks := true } ]

/-- `deleteProduct`: runs the six steps; the `catch` block turns any thrown
failure into the fixed `{error: "Something went wrong, Cannot delete the
product"}` object, and full success returns `{message: "success"}`. -/
def deleteProduct (db : DB) (pid : Nat) (failAt : Option Nat) : DB × WriteResult :=
  match runSteps (deleteSteps pid) failAt db with
  | (db1, false) => (db1, .ok "success")
  | (db1, true) => (db1, .err "Something went wrong, Cannot delete the product")

/-- The sequential data-access calls of `editProduct`: the `UPDATE products`
statement, then — only when `value.categories` is an array — the delete of
the existing `product_categories` rows and, when the new category list is
non-empty, their re-insert. -/
def editSteps (pid : Nat) (v : ProductForm) : List (DB → DB) :=
  [fun db =>
      { db with
        products :=
          db.products.map (fun p =>
            if p.id = pid then applyRowUpdate (buildUpdateData v) p else p) }]
  ++ match v.categories with
     | none => []
     | some cats =>
       [fun db =>
          { db with
            product_categories :=
              db.product_categories.filter (fun pc => pc.product_id != pid) }]
       ++ (if (cats.map (fun c => c.value)) = [] then []
           else
             [fun db =>
                { db with
                  product_categories :=
                    db.product_categories ++
                      (cats.map (fun c => c.value)).map
                        (fun cid => { product_id := pid, category_id := cid }) }])

/-- `editProduct`: runs its steps; the `catch` block returns
`{error: err.message}` — `emsg` is the message of the failing call's error —
and full success returns `{message: "success"}`. -/
def editProduct (db : DB) (pid : Nat) (v : ProductForm) (emsg : String)
    (failAt : Option Nat) : DB × WriteResult :=
  match runSteps (editSteps pid v) failAt db with
  | (db1, false) => (db1, .ok "success")
  | (db1, true) => (db1, .err emsg)

/-- `addProduct`: inserts the product row (step 0), checks the driver's
`insertId` (`0` or absent is falsy and makes the function throw
`"Failed to insert product"`, caught by its own `catch`), then — when
`value.categories` is a non-empty array — inserts the category links
(step 1).  Any thrown failure is caught and returned as
`{error: err.message}`. -/
def addProduct (db : DB) (v : ProductForm) (newId : Nat) (emsg : String)
    (failAt : Option Nat) : DB × WriteResult :=
  if failAt = some 0 then (db, .err emsg)
  else
    let db1 := { db with products := db.products ++ [rowToProduct newId (buildInsertData v)] }
    if newId = 0 then (db1, .err "Failed to insert product")
    else
      match v.categories with
      | none => (db1, .ok "success")
      | some cats =>
        if (cats.map (fun c => c.value)) = [] then (db1, .ok "success")
        else if failAt = some 1 then (db1, .err emsg)
        else
          ({ db1 with
              product_categories :=
                db1.product_categories ++
                  (cats.map (fun c => c.value)).map
                    (fun cid => { product_id := newId, category_id := cid }) },
            .ok "success")

/- ===== Decidability and fixtures ===== -/

instance {ε α : Type} [DecidableEq ε] [DecidableEq α] : DecidableEq (Except ε α) := fun x y =>
  match x, y with
  | .ok a, .ok b => decidable_of_iff (a = b) ⟨fun h => by rw [h], fun h => by cases h; rfl⟩
  | .error a, .error b => decidable_of_iff (a = b) ⟨fun h => by rw [h], fun h => by cases h; rfl⟩
  | .ok _, .error _ => isFalse (fun h => by cases h)
  | .error _, .ok _ => isFalse (fun h => by cases h)

/-- Fixture: one product, no associations. -/
def prodOne : Product :=
  { id := 1, name := "p", gender := "men", price := 100, old_price := 120, discount := 10,
    rating := 4, created_at := 1, brands := [2], occasion := ["casual"] }

/-- Fixture: a catalog holding only `prodOne`. -/
def dbOne : DB := { products := [prodOne] }

/-- Fixture: product 1 of the two-product category scenario. -/
def prodX : Product := { id := 1, name := "x", price := 50 }

/-- Fixture: product 2 of the two-product category scenario. -/
def prodY : Product := { id := 2, name := "y", price := 60 }

/-- Fixture: two products; product 1 is linked to categories 1 and 2,
product 2 to categories 1 and 3. -/
def dbCat : DB :=
  { products := [prodX, prodY],
    product_categories :=
      [ { product_id := 1, category_id := 1 }, { product_id := 1, category_id := 2 },
        { product_id := 2, category_id := 1 }, { product_id := 2, category_id := 3 } ] }

/-- Fixture: category filter on categories 1 and 2 (so product 1 joins to two
association rows and product 2 to one). -/
def catFilter : Filters := { categoryIds := [1, 2] }

/-- Fixture: the cheaper product of the sorting scenario. -/
def prodCheap : Product := { id := 3, name := "cheap", price := 10 }

/-- Fixture: the costlier product of the sorting scenario. -/
def prodCostly : Product := { id := 4, name := "costly", price := 99 }

/-- Fixture: two products stored costlier-first, so a price-ascending sort is
observable. -/
def dbSort : DB := { products := [prodCostly, prodCheap] }

/-- Fixture: a product with one category link, one review and one comment. -/
def dbDel : DB :=
  { products := [{ id := 1 }],
    product_categories := [{ product_id := 1, category_id := 1 }],
    reviews := [{ id := 1, product_id := 1 }],
    comments := [{ id := 1, product_id := 1 }] }

/-- Fixture: a product whose decoded brand list is `[7, 9]`. -/
def prodBrand : Product := { id := 9, brands := [7, 9] }

/-- Fixture: a product form carrying one category link, so the
`product_categories` insert step of addProduct actually runs. -/
def formCats : ProductForm := { categories := some [{ value := 5 }] }

/- ===== Helper lemmas ===== -/

theorem all_filter_self {α : Type} (p : α → Bool) (l : List α) : (l.filter p).all p = true := by
  rw [List.all_eq_true]
  intro x hx
  exact (List.mem_filter.mp hx).2

theorem length_insertSorted (le : Product → Product → Bool) (x : Product) :
    ∀ l : List Product, (insertSorted le x l).length = l.length + 1
  | [] => rfl
  | y :: ys => by
    unfold insertSorted
    split
    · rfl
    · simp [length_insertSorted le x ys]

theorem length_isort (le : Product → Product → Bool) :
    ∀ l : List Product, (isort le l).length = l.length
  | [] => rfl
  | x :: xs => by
    unfold isort
    rw [length_insertSorted, length_isort le xs]
    rfl

theorem length_sortRows (spec : Option (String × String)) (l : List Product) :
    (sortRows spec l).length = l.length := by
  cases spec with
  | none => rfl
  | some cd => exact length_isort _ l

/-- The page row count is `min pageSize (distinct row count - offset)`. -/
theorem length_fetchPage (spec : Option (String × String)) (rows : List Product)
    (pageNo pageSize : Nat) :
    (fetchPage spec rows pageNo pageSize).length =
      min pageSize (rows.dedup.length - (pageNo - 1) * pageSize) := by
  simp [fetchPage, List.length_take, List.length_drop, length_sortRows]

/-- Counting distinct images equals counting distinct elements when the map
is injective on the list. -/
theorem dedup_length_map {α β : Type} [DecidableEq α] [DecidableEq β] (g : α → β) :
    ∀ l : List α, (∀ a ∈ l, ∀ b ∈ l, g a = g b → a = b) →
      ((l.map g).dedup).length = l.dedup.length
  | [], _ => rfl
  | x :: xs, h => by
    have hinj : ∀ a ∈ xs, ∀ b ∈ xs, g a = g b → a = b := fun a ha b hb =>
      h a (List.mem_cons_of_mem x ha) b (List.mem_cons_of_mem x hb)
    have ih := dedup_length_map g xs hinj
    by_cases hx : x ∈ xs
    · rw [List.map_cons, List.dedup_cons_of_mem (List.mem_map_of_mem g hx),
        List.dedup_cons_of_mem hx, ih]
    · have hgx : g x ∉ xs.map g := by
        intro hmem
        rcases List.mem_map.mp hmem with ⟨y, hy, hgy⟩
        have hyx := h y (List.mem_cons_of_mem x hy) x (List.mem_cons_self x xs) hgy
        exact hx (hyx ▸ hy)
      rw [List.map_cons, List.dedup_cons_of_not_mem hgx, List.dedup_cons_of_not_mem hx,
        List.length_cons, List.length_cons, ih]

theorem mem_catJoinRows {db : DB} {f : Filters} {x : Product}
    (hx : x ∈ catJoinRows db f) : x ∈ db.products := by
  unfold catJoinRows at hx
  split at hx
  · exact hx
  · rcases List.mem_flatMap.mp hx with ⟨p, hp, hmem⟩
    rcases List.mem_map.mp hmem with ⟨pc, _, rfl⟩
    exact hp

theorem mem_baseRows {db : DB} {f : Filters} {x : Product}
    (hx : x ∈ baseRows db f) : x ∈ db.products :=
  mem_catJoinRows (List.mem_filter.mp hx).1

/-- With distinct product ids, `COUNT(DISTINCT id)` over the filtered rows
equals the number of distinct filtered rows. -/
theorem countDistinctIds_eq_dedup_length {db : DB} {f : Filters}
    (h : (db.products.map (fun p => p.id)).Nodup) :
    countDistinctIds (baseRows db f) = (baseRows db f).dedup.length := by
  apply dedup_length_map
  intro a ha b hb hab
  exact List.inj_on_of_nodup_map h (mem_baseRows ha) (mem_baseRows hb) hab

/-- The discount clause is vacuous when the filter field is absent. -/
theorem discountClause_none (p : Product) : discountClause none p = true := rfl

/-- A malformed discount string (a piece that is not a number, or a missing
piece) makes the discount clause vacuous. -/
theorem discountClause_malformed {s : String}
    (h : jsNumber (jsSplitDash s)[0]? = none ∨ jsNumber (jsSplitDash s)[1]? = none)
    (p : Product) : discountClause (some s) p = true := by
  simp only [discountClause]
  by_cases hs : s = ""
  · rw [if_pos hs]
  · rw [if_neg hs]
    rcases h with h | h
    · rw [h]
    · cases h0 : jsNumber (jsSplitDash s)[0]? with
      | none => rfl
      | some lo => rw [h]

theorem rowPred_discount_malformed {f : Filters} {s : String} (hd : f.discount = some s)
    (h : jsNumber (jsSplitDash s)[0]? = none ∨ jsNumber (jsSplitDash s)[1]? = none)
    (p : Product) : rowPred { f with discount := none } p = rowPred f p := by
  simp only [rowPred, hd, discountClause_malformed h p, discountClause_none]

theorem baseRows_discount_malformed {db : DB} {f : Filters} {s : String}
    (hd : f.discount = some s)
    (h : jsNumber (jsSplitDash s)[0]? = none ∨ jsNumber (jsSplitDash s)[1]? = none) :
    baseRows db { f with discount := none } = baseRows db f := by
  unfold baseRows
  have hcat : catJoinRows db { f with discount := none } = catJoinRows db f := rfl
  rw [hcat]
  exact List.filter_congr (fun a _ => rowPred_discount_malformed hd h a)

theorem getProductsB_discount_malformed {db : DB} {pageNo pageSize : Nat} {f : Filters}
    {s : String} (hd : f.discount = some s)
    (h : jsNumber (jsSplitDash s)[0]? = none ∨ jsNumber (jsSplitDash s)[1]? = none) :
    getProducts_B db pageNo pageSize f
      = getProducts_B db pageNo pageSize { f with discount := none } := by
  unfold getProducts_B
  rw [baseRows_discount_malformed hd h]

theorem getProductsA_discount_malformed {db : DB} {pageNo pageSize : Nat} {f : Filters}
    {s : String} (hd : f.discount = some s)
    (h : jsNumber (jsSplitDash s)[0]? = none ∨ jsNumber (jsSplitDash s)[1]? = none) :
    getProducts_A db pageNo pageSize f
      = getProducts_A db pageNo pageSize { f with discount := none } := by
  unfold getProducts_A
  rw [baseRows_discount_malformed hd h]

theorem getProductsB_sort_omitted {db : DB} {pageNo pageSize : Nat} {f : Filters}
    {s : String} (hs : f.sortBy = some s) (h : sortSpecB (some s) = none) :
    getProducts_B db pageNo pageSize f
      = getProducts_B db pageNo pageSize { f with sortBy := none } := by
  unfold getProducts_B
  rw [hs, h]
  rfl

theorem getProductsA_sort_omitted {db : DB} {pageNo pageSize : Nat} {f : Filters}
    {s : String} (hs : f.sortBy = some s) (h : sortSpecA (some s) = .ok none) :
    getProducts_A db pageNo pageSize f
      = getProducts_A db pageNo pageSize { f with sortBy := none } := by
  unfold getProducts_A
  rw [hs, h]
  rfl

theorem getProductsA_sort_error {db : DB} {pageNo pageSize : Nat} {f : Filters}
    {s e : String} (hs : f.sortBy = some s) (h : sortSpecA (some s) = .error e) :
    getProducts_A db pageNo pageSize f = .error e := by
  unfold getProducts_A
  rw [hs, h]

/- ===== Claim theorems ===== -/

/-- Claim C1 (code-bug exhibit): in the productActions.ts revision the
count query's `COUNT(DISTINCT products.id)` select is commented out, so the
returned `count` is `Number(firstRow?.count ?? 0) = 0` whatever matches: on a
catalog with one product and no filters the revision returns `count = 0` and
`lastPage = 0` although exactly one distinct product satisfies the predicate,
while the part_000 revision returns `count = 1` and `lastPage = 1` as the
claim states. -/
theorem claim1_count_bug_exhibit :
    getProducts_A dbOne 1 10 {} =
      .ok { products := [prodOne], count := 0, lastPage := 0, numOfResultsOnCurPage := 1 }
    ∧ (matchingProducts dbOne {}).length = 1
    ∧ (getProducts_B dbOne 1 10 {}).count = 1
    ∧ (getProducts_B dbOne 1 10 {}).lastPage = 1 := by decide

/-- Claim C3 (code-bug exhibit): with `categoryIds = [1, 2]` and two products
each linked to two categories, the join yields product 1 twice; both
revisions deduplicate the returned page (each product appears once), and the
part_000 revision counts each matching product exactly once (`count = 2`),
but the productActions.ts revision reports `count = 0` because of the
commented-out count select, so its count does not report each matching
product exactly once. -/
theorem claim3_category_count_bug_exhibit :
    getProducts_A dbCat 1 10 catFilter =
      .ok { products := [prodX, prodY], count := 0, lastPage := 0, numOfResultsOnCurPage := 2 }
    ∧ (matchingProducts dbCat catFilter).length = 2
    ∧ (getProducts_B dbCat 1 10 catFilter).count = 2
    ∧ (getProducts_B dbCat 1 10 catFilter).products = [prodX, prodY]
    ∧ ((getProducts_B dbCat 1 10 catFilter).products.map (fun p => p.id)).Nodup := by decide

/-- Claim C4 counterexample: `sortBy = "price"` is malformed (it has no
direction part), yet the productActions.ts revision raises an error instead
of omitting the sort: `column` passes the allow-list, so the validation
evaluates `undefined.toLowerCase()` and throws. -/
theorem claim4_sort_throws_counterexample :
    getProducts_A dbOne 1 10 { sortBy := some "price" } = .error sortTypeError := by decide

/-- Claim C4 (amended): a malformed discount value never raises and behaves
exactly as if the discount filter were omitted, in both revisions; a
malformed sortBy behaves as if the sort were omitted — always in the
part_000 revision, and in the productActions.ts revision whenever its parse
does not throw; but when sortBy is a dash-free token naming an allow-listed
column the productActions.ts revision propagates a TypeError instead. -/
theorem claim4_malformed_inputs_amended :
    ∀ (db : DB) (pageNo pageSize : Nat) (f : Filters) (s : String),
      (f.discount = some s →
        (jsNumber (jsSplitDash s)[0]? = none ∨ jsNumber (jsSplitDash s)[1]? = none) →
        getProducts_B db pageNo pageSize f
            = getProducts_B db pageNo pageSize { f with discount := none }
          ∧ getProducts_A db pageNo pageSize f
            = getProducts_A db pageNo pageSize { f with discount := none })
      ∧ (f.sortBy = some s → sortSpecB (some s) = none →
          getProducts_B db pageNo pageSize f
            = getProducts_B db pageNo pageSize { f with sortBy := none })
      ∧ (f.sortBy = some s → sortSpecA (some s) = .ok none →
          getProducts_A db pageNo pageSize f
            = getProducts_A db pageNo pageSize { f with sortBy := none })
      ∧ (f.sortBy = some s → ∀ e, sortSpecA (some s) = .error e →
          getProducts_A db pageNo pageSize f = .error e) := by
  intro db pageNo pageSize f s
  refine ⟨fun hd h => ⟨?_, ?_⟩, fun hs h => ?_, fun hs h => ?_, fun hs e h => ?_⟩
  · exact getProductsB_discount_malformed hd h
  · exact getProductsA_discount_malformed hd h
  · exact getProductsB_sort_omitted hs h
  · exact getProductsA_sort_omitted hs h
  · exact getProductsA_sort_error hs h

/-- Claim C4 witness: the amended theorem applied at the concrete malformed
values named by the spec and at the throwing corner case. -/
theorem claim4_malformed_inputs_amended_witness :
    getProducts_B dbOne 1 10 { discount := some "abc-10" } = getProducts_B dbOne 1 10 {}
    ∧ getProducts_A dbOne 1 10 { discount := some "abc-10" } = getProducts_A dbOne 1 10 {}
    ∧ getProducts_B dbOne 1 10 { sortBy := some "color-asc" } = getProducts_B dbOne 1 10 {}
    ∧ getProducts_A dbOne 1 10 { sortBy := some "color-asc" } = getProducts_A dbOne 1 10 {}
    ∧ getProducts_A dbOne 1 10 { sortBy := some "price" } = .error sortTypeError :=
  ⟨((claim4_malformed_inputs_amended dbOne 1 10 { discount := some "abc-10" } "abc-10").1 rfl
      (Or.inl (by decide))).1,
   ((claim4_malformed_inputs_amended dbOne 1 10 { discount := some "abc-10" } "abc-10").1 rfl
      (Or.inl (by decide))).2,
   (claim4_malformed_inputs_amended dbOne 1 10 { sortBy := some "color-asc" } "color-asc").2.1
      rfl (by decide),
   (claim4_malformed_inputs_amended dbOne 1 10 { sortBy := some "color-asc" } "color-asc").2.2.1
      rfl (by decide),
   (claim4_malformed_inputs_amended dbOne 1 10 { sortBy := some "price" } "price").2.2.2
      rfl sortTypeError (by decide)⟩

/-- Claim C5 counterexample: for `sortBy = "price-ASC"` the column is in the
allow-list and the direction is one of asc/desc compared case-insensitively,
so the claim says an ordering is applied; but the part_000 revision compares
the direction case-sensitively and applies no ordering: its result equals the
unsorted one, while the lower-case `"price-asc"` visibly reorders the page. -/
theorem claim5_case_sensitive_counterexample :
    sortSpecB (some "price-ASC") = none
    ∧ validColumns.contains "price" = true
    ∧ validOrders.contains (jsToLower "ASC") = true
    ∧ getProducts_B dbSort 1 10 { sortBy := some "price-ASC" } = getProducts_B dbSort 1 10 {}
    ∧ (getProducts_B dbSort 1 10 { sortBy := some "price-asc" }).products = [prodCheap, prodCostly]
    ∧ (getProducts_B dbSort 1 10 { sortBy := some "price-ASC" }).products = [prodCostly, prodCheap]
    := by decide

/-- Claim C5 (amended): characterization of both revisions' sort validation.
With sortBy split on the dash into column and direction: the part_000
revision applies an ordering exactly when the column is in the allow-list and
the direction is exactly "asc" or "desc" (case-sensitive); the
productActions.ts revision lower-cases the direction before the test
(case-insensitive) but, when the string has no dash, throws if the lone token
is an allow-listed column and otherwise applies no ordering; an absent or
empty sortBy applies no ordering in either revision. -/
theorem claim5_sort_allowlist_amended :
    ∀ (s column order : String) (rest : List String),
      (s ≠ "" → jsSplitDash s = column :: order :: rest →
        sortSpecB (some s) =
          (if validColumns.contains column && validOrders.contains order then
            some (column, order)
          else none)
        ∧ sortSpecA (some s) =
            .ok
              (if validColumns.contains column && validOrders.contains (jsToLower order) then
                some (column, jsToLower order)
              else none))
      ∧ (s ≠ "" → jsSplitDash s = [column] →
          sortSpecB (some s) = none
          ∧ sortSpecA (some s) =
              (if validColumns.contains column then .error sortTypeError else .ok none))
      ∧ sortSpecB none = none ∧ sortSpecA none = .ok none
      ∧ sortSpecB (some "") = none ∧ sortSpecA (some "") = .ok none := by
  intro s column order rest
  refine ⟨fun hs hsplit => ⟨?_, ?_⟩, fun hs hsplit => ⟨?_, ?_⟩, rfl, rfl, rfl, rfl⟩
  · simp only [sortSpecB]
    rw [if_neg hs, hsplit]
  · simp only [sortSpecA]
    rw [if_neg hs, hsplit]
  · simp only [sortSpecB]
    rw [if_neg hs, hsplit]
  · simp only [sortSpecA]
    rw [if_neg hs, hsplit]

/-- Claim C5 witness: the amended theorem applied at "price-ASC" (ordering
applied by productActions.ts, none by part_000) and at the dash-free "price"
(throw in productActions.ts, none in part_000). -/
theorem claim5_sort_allowlist_amended_witness :
    sortSpecB (some "price-ASC") = none
    ∧ sortSpecA (some "price-ASC") = .ok (some ("price", "asc"))
    ∧ sortSpecB (some "price") = none
    ∧ sortSpecA (some "price") = .error sortTypeError := by
  have h1 := (claim5_sort_allowlist_amended "price-ASC" "price" "ASC" []).1
    (by decide) (by decide)
  have h2 := (claim5_sort_allowlist_amended "price" "price" "x" []).2.1
    (by decide) (by decide)
  exact ⟨h1.1.trans (by decide), h1.2.trans (by decide), h2.1, h2.2.trans (by decide)⟩

/-- Claim C6: with a non-empty brandIds filter, the brand clause (OR-joined
membership tests against the encoded brand-list field, in both revisions)
holds for a product exactly when at least one of the given ids occurs in the
product's brand list; in particular a product whose brand list holds only
ids outside the given set does not match. -/
theorem claim6_brand_disjunction :
    ∀ (bids : List Nat) (p : Product), bids ≠ [] →
      (brandMatch bids p = true ↔ ∃ b ∈ bids, b ∈ p.brands)
      ∧ (brandMatch bids p = false → ∀ b ∈ p.brands, b ∉ bids) := by
  intro bids p hne
  have hiff : brandMatch bids p = true ↔ ∃ b ∈ bids, b ∈ p.brands := by
    simp [brandMatch, List.any_eq_true]
  refine ⟨hiff, fun hfalse b hb hmem => ?_⟩
  rw [hiff.mpr ⟨b, hmem, hb⟩] at hfalse
  cases hfalse

/-- Claim C6 witness: `brandIds = [3, 7]` matches a product whose brand list
is `[7, 9]`. -/
theorem claim6_brand_disjunction_witness :
    ([3, 7] : List Nat) ≠ [] ∧ brandMatch [3, 7] prodBrand = true :=
  ⟨by decide,
   (claim6_brand_disjunction [3, 7] prodBrand (by decide)).1.mpr ⟨7, by decide, by decide⟩⟩

/-- Claim C7: in getProducts the two data-access calls run in sequence inside
a try block whose catch rethrows the caught error unchanged; so a count-query
failure propagates as-is (the row query never contributing), a row-query
failure after a successful count propagates as-is, and a successful result
exists only when both calls succeeded — no partial result, no retry. -/
theorem claim7_error_propagation :
    ∀ (pageSize : Nat) (countQ : Except String Nat) (rowsQ : Except String (List Product))
      (e : String),
      (countQ = .error e → getProductsSteps pageSize countQ rowsQ = .error e)
      ∧ (∀ n, countQ = .ok n → rowsQ = .error e →
          getProductsSteps pageSize countQ rowsQ = .error e)
      ∧ (∀ r, getProductsSteps pageSize countQ rowsQ = .ok r →
          ∃ n rows, countQ = .ok n ∧ rowsQ = .ok rows ∧ r.products = rows ∧ r.count = n) := by
  intro pageSize countQ rowsQ e
  refine ⟨?_, ?_, ?_⟩
  · rintro rfl
    rfl
  · rintro n rfl rfl
    rfl
  · intro r h
    cases countQ with
    | error e1 => cases h
    | ok n =>
      cases rowsQ with
      | error e1 => cases h
      | ok rows =>
        injection h with h
        subst h
        exact ⟨n, rows, rfl, rfl, rfl, rfl⟩

/-- Claim C7 witness: a failing count query and a failing row query, each
propagated unmodified. -/
theorem claim7_error_propagation_witness :
    getProductsSteps 10 (.error "db down") (.ok []) = .error "db down"
    ∧ getProductsSteps 10 (.ok 5) (.error "db down") = .error "db down" :=
  ⟨(claim7_error_propagation 10 (.error "db down") (.ok []) "db down").1 rfl,
   (claim7_error_propagation 10 (.ok 5) (.error "db down") "db down").2.1 5 rfl rfl⟩

/-- Claim C8: each write operation wraps its data-access sequence in a catch
that returns a structured error object instead of raising: every failing
step of deleteProduct returns its fixed error message and every failing step
of editProduct returns the thrown message; for addProduct both of its
data-access steps are covered — a failing product insert (step 0) and a
failing category-links insert (step 1, which runs when the category list is
non-empty and the insert id is truthy) each return the thrown message, and a
falsy driver insert id makes it return its own "Failed to insert product"
error object — while a fully successful run returns the success
indicator. -/
theorem claim8_write_ops_catch :
    ∀ (db : DB) (pid : Nat) (v : ProductForm) (emsg : String) (failAt : Option Nat)
      (k newId : Nat),
      (failAt = some k → k < (deleteSteps pid).length →
        (deleteProduct db pid failAt).2 = .err "Something went wrong, Cannot delete the product")
      ∧ (failAt = none → (deleteProduct db pid failAt).2 = .ok "success")
      ∧ (failAt = some k → k < (editSteps pid v).length →
          (editProduct db pid v emsg failAt).2 = .err emsg)
      ∧ (failAt = none → (editProduct db pid v emsg failAt).2 = .ok "success")
      ∧ (failAt = some 0 → (addProduct db v newId emsg failAt).2 = .err emsg)
      ∧ (failAt = none → newId ≠ 0 → (addProduct db v newId emsg failAt).2 = .ok "success")
      ∧ (failAt = some 1 → newId ≠ 0 → ∀ cats, v.categories = some cats →
          cats.map (fun c => c.value) ≠ [] →
          (addProduct db v newId emsg failAt).2 = .err emsg)
      ∧ (failAt = none → newId = 0 →
          (addProduct db v newId emsg failAt).2 = .err "Failed to insert product") := by
  intro db pid v emsg failAt k newId
  refine ⟨?_, ?_, ?_, ?_, ?_, ?_, ?_, ?_⟩
  · rintro rfl hk
    simp [deleteProduct, runSteps, hk]
  · rintro rfl
    rfl
  · rintro rfl hk
    simp [editProduct, runSteps, hk]
  · rintro rfl
    rfl
  · rintro rfl
    rfl
  · rintro rfl hnew
    show (addProduct db v newId emsg none).2 = .ok "success"
    simp only [addProduct, if_neg (by simp : ¬ (none : Option Nat) = some 0), if_neg hnew]
    cases v.categories with
    | none => rfl
    | some cats =>
      by_cases hc : (cats.map (fun c => c.value)) = []
      · simp [hc]
      · simp [hc]
  · rintro rfl hnew cats hcats hne
    show (addProduct db v newId emsg (some 1)).2 = .err emsg
    simp [addProduct, hcats, hnew, hne]
  · rintro rfl rfl
    rfl

/-- Claim C8 witness: a delete failing at its third call returns the error
object; fully successful edit and add return the success indicator; an add
whose product insert fails, or whose category-links insert fails, or whose
driver returns a falsy insert id, returns the structured error. -/
theorem claim8_write_ops_catch_witness :
    (deleteProduct dbDel 1 (some 2)).2 = .err "Something went wrong, Cannot delete the product"
    ∧ (editProduct dbDel 1 {} "boom" none).2 = .ok "success"
    ∧ (addProduct dbDel {} 7 "boom" none).2 = .ok "success"
    ∧ (addProduct dbDel {} 7 "boom" (some 0)).2 = .err "boom"
    ∧ (addProduct dbDel formCats 7 "boom" (some 1)).2 = .err "boom"
    ∧ (addProduct dbDel {} 0 "boom" none).2 = .err "Failed to insert product" :=
  ⟨(claim8_write_ops_catch dbDel 1 {} "boom" (some 2) 2 7).1 rfl (by decide),
   (claim8_write_ops_catch dbDel 1 {} "boom" none 2 7).2.2.2.1 rfl,
   (claim8_write_ops_catch dbDel 1 {} "boom" none 2 7).2.2.2.2.2.1 rfl (by decide),
   (claim8_write_ops_catch dbDel 1 {} "boom" (some 0) 2 7).2.2.2.2.1 rfl,
   (claim8_write_ops_catch dbDel 1 formCats "boom" (some 1) 2 7).2.2.2.2.2.2.1 rfl (by decide)
     [{ value := 5 }] rfl (by decide),
   (claim8_write_ops_catch dbDel 1 {} "boom" none 2 0).2.2.2.2.2.2.2 rfl rfl⟩

/-- Claim C9 counterexample: deleting product 1 — which has a category link,
a review and a comment — with the third data-access call (the reviews
delete) failing leaves the `product_categories` rows already removed while
`reviews`, `comments` and `products` are untouched: neither are all four row
sets removed nor are all left untouched, refuting the claimed atomicity. -/
theorem claim9_partial_delete_counterexample :
    (deleteProduct dbDel 1 (some 2)).2 = .err "Something went wrong, Cannot delete the product"
    ∧ (deleteProduct dbDel 1 (some 2)).1.product_categories = []
    ∧ (deleteProduct dbDel 1 (some 2)).1.reviews = [{ id := 1, product_id := 1 }]
    ∧ (deleteProduct dbDel 1 (some 2)).1.comments = [{ id := 1, product_id := 1 }]
    ∧ (deleteProduct dbDel 1 (some 2)).1.products = [{ id := 1 }] := by decide

/-- Claim C9 (amended): deleteProduct runs its four deletes sequentially with
no transaction: a fully successful run removes the product's rows from all
four tables, but a run whose third call (the reviews delete) fails returns
the error object with the `product_categories` rows already removed and the
`reviews`, `comments` and `products` tables untouched — so a mid-sequence
failure leaves a partial, inconsistent state rather than rolling back. -/
theorem claim9_delete_no_transaction_amended :
    ∀ (db : DB) (pid : Nat),
      ((deleteProduct db pid none).2 = .ok "success"
        ∧ (deleteProduct db pid none).1.product_categories.all
            (fun pc => pc.product_id != pid) = true
        ∧ (deleteProduct db pid none).1.reviews.all (fun r => r.product_id != pid) = true
        ∧ (deleteProduct db pid none).1.comments.all (fun c => c.product_id != pid) = true
        ∧ (deleteProduct db pid none).1.products.all (fun p => p.id != pid) = true)
      ∧ ((deleteProduct db pid (some 2)).2
            = .err "Something went wrong, Cannot delete the product"
        ∧ (deleteProduct db pid (some 2)).1.product_categories.all
            (fun pc => pc.product_id != pid) = true
        ∧ (deleteProduct db pid (some 2)).1.reviews = db.reviews
        ∧ (deleteProduct db pid (some 2)).1.comments = db.comments
        ∧ (deleteProduct db pid (some 2)).1.products = db.products) := by
  intro db pid
  refine ⟨⟨rfl, ?_, ?_, ?_, ?_⟩, ⟨rfl, ?_, rfl, rfl, rfl⟩⟩
  · exact all_filter_self _ db.product_categories
  · exact all_filter_self _ db.reviews
  · exact all_filter_self _ db.comments
  · exact all_filter_self _ db.products
  · exact all_filter_self _ db.product_categories

/-- Claim C10: both builders set the stored `price` to
`Number(value.old_price.toString())` — the same value as the stored
`old_price` — and never read the submitted `price` field, so changing the
submitted price changes nothing and the persisted price always equals the
persisted old_price. -/
theorem claim10_price_from_old_price :
    ∀ (v : ProductForm) (p : String),
      (buildInsertData v).price = jsNumber (some v.old_price)
      ∧ (buildInsertData v).price = (buildInsertData v).old_price
      ∧ buildInsertData { v with price := p } = buildInsertData v
      ∧ (buildUpdateData v).price = jsNumber (some v.old_price)
      ∧ (buildUpdateData v).price = (buildUpdateData v).old_price
      ∧ buildUpdateData { v with price := p } = buildUpdateData v :=
  fun _ _ => ⟨rfl, rfl, rfl, rfl, rfl, rfl⟩

/-- Claim C2: with distinct product ids, a positive page size and a valid
page number, the returned page never exceeds the page size, and every page
strictly before the last page is full; the productActions.ts revision
returns a page of the same size as the part_000 revision whenever its sort
parsing does not throw (its pagination pipeline is identical). -/
theorem claim2_page_size_bounds :
    ∀ (db : DB) (pageNo pageSize : Nat) (f : Filters),
      (db.products.map (fun p => p.id)).Nodup → 0 < pageSize → 1 ≤ pageNo →
      ((getProducts_B db pageNo pageSize f).numOfResultsOnCurPage ≤ pageSize
        ∧ (pageNo < (getProducts_B db pageNo pageSize f).lastPage →
            (getProducts_B db pageNo pageSize f).numOfResultsOnCurPage = pageSize)
        ∧ ∀ r, getProducts_A db pageNo pageSize f = .ok r →
            r.numOfResultsOnCurPage
              = (getProducts_B db pageNo pageSize f).numOfResultsOnCurPage) := by
  intro db pageNo pageSize f hids hps hpn
  have hBnum : (getProducts_B db pageNo pageSize f).numOfResultsOnCurPage
      = min pageSize ((baseRows db f).dedup.length - (pageNo - 1) * pageSize) := by
    show (fetchPage (sortSpecB f.sortBy) (baseRows db f) pageNo pageSize).length = _
    exact length_fetchPage _ _ _ _
  have hBlast : (getProducts_B db pageNo pageSize f).lastPage
      = ceilDiv ((baseRows db f).dedup.length) pageSize := by
    show ceilDiv (countDistinctIds (baseRows db f)) pageSize = _
    rw [countDistinctIds_eq_dedup_length hids]
  refine ⟨?_, ?_, ?_⟩
  · rw [hBnum]
    exact Nat.min_le_left _ _
  · intro hlt
    rw [hBlast] at hlt
    rw [hBnum]
    set N := (baseRows db f).dedup.length with hN
    have h1 : (pageNo + 1) * pageSize ≤ N + pageSize - 1 := by
      have h0 := (Nat.le_div_iff_mul_le hps).mp (Nat.succ_le_of_lt hlt)
      simpa [ceilDiv] using h0
    have h2 : (pageNo - 1) * pageSize + pageSize = pageNo * pageSize := by
      cases pageNo with
      | zero => omega
      | succ n => rw [Nat.succ_sub_one, Nat.succ_mul]
    rw [Nat.succ_mul] at h1
    apply Nat.min_eq_left
    generalize hA : pageNo * pageSize = a at h1 h2
    generalize hB : (pageNo - 1) * pageSize = b at h2 ⊢
    omega
  · intro r hr
    simp only [getProducts_A] at hr
    cases hA : sortSpecA f.sortBy with
    | error e =>
      rw [hA] at hr
      cases hr
    | ok spec =>
      rw [hA] at hr
      injection hr with hr
      subst hr
      show (fetchPage spec (baseRows db f) pageNo pageSize).length = _
      rw [length_fetchPage, hBnum]

/-- Claim C2 witness: on the two-product fixture, page 1 of size 1 is before
the last page (of two) and is exactly full, and a page never exceeds its
size. -/
theorem claim2_page_size_bounds_witness :
    (getProducts_B dbSort 1 1 {}).numOfResultsOnCurPage = 1
    ∧ (getProducts_B dbSort 1 10 {}).numOfResultsOnCurPage ≤ 10 :=
  ⟨(claim2_page_size_bounds dbSort 1 1 {} (by decide) (by decide) (by decide)).2.1 (by decide),
   (claim2_page_size_bounds dbSort 1 10 {} (by decide) (by decide) (by decide)).1⟩
